import Mathlib

/-!
Shallow embedding of `src/gruvi/protocols.py` (the protocol / flow-control
layer of the gruvi cooperative-concurrency runtime), together with proofs of
the behavioural properties stated about it.

The synchronization primitives (`sync.Event`, `sync.Queue`) and the fiber
machinery (`hub`, `fibers`) are imported by `protocols.py` but their source is
not part of the supplied tree; they are modelled from the specification where
needed (a one-shot boolean gate, a FIFO queue).  External side effects on the
transport (`pause_reading`, `resume_reading`, `close`, `write`) are recorded
as explicit traces of `TransportCall` values, and calls made by the dispatch
loop are recorded as traces of `DispatchEvent` values, so every operation of
the Python class becomes a pure function from states to states plus a trace.
-/

namespace Gruvi

/-- Errors that can be stored in a protocol's `_error` slot or raised by an
operation: `protocolError` models `ProtocolError(msg)`, `cancelled` models the
`Cancelled` condition used for cooperative fiber teardown, and `generic`
stands for any other exception object (for instance an I/O error delivered by
the transport via `connection_lost`). -/
inductive Err where
  | protocolError (msg : String)
  | cancelled
  | generic (msg : String)
  deriving DecidableEq, Repr

/-- Modelled from the spec: the one-shot Gate (`gruvi.sync.Event`), whose
source file is not in the supplied tree.  Per the spec it is a boolean
`signaled` flag plus a wait set; `set()` makes the flag true and wakes all
waiters, `clear()` makes it false, and in a boolean context the gate reads as
its flag (`is_set`). -/
structure Event where
  signaled : Bool
  deriving DecidableEq, Repr

/-- `Event()` constructor: flag initially false. -/
def Event.make : Event := ⟨false⟩

/-- `Event.set()`: the flag becomes true (all waiters are woken). -/
def Event.set (_e : Event) : Event := ⟨true⟩

/-- `Event.clear()`: the flag becomes false. -/
def Event.clear (_e : Event) : Event := ⟨false⟩

/-- An outbound call made by the protocol on its transport collaborator. -/
inductive TransportCall where
  | pauseReading
  | resumeReading
  | close
  deriving DecidableEq, Repr

/-- The instance state of `BaseProtocol` (and of `Protocol`, which adds no
fields).  `transport` records whether `self._transport` is currently a live
transport object (`true`) or `None` (`false`); buffer sizes and watermarks are
Python integers, modelled as `Int`. -/
structure BaseProtocol where
  transport : Bool
  readBufferSize : Int
  readBufferHigh : Int
  readBufferLow : Int
  error : Option Err
  mayWrite : Event
  closing : Bool
  closed : Event
  reading : Bool
  deriving DecidableEq, Repr

/-- The class attribute `BaseProtocol.read_buffer_size = 65536`, used as the
default high watermark. -/
def read_buffer_size_default : Int := 65536

/-- `BaseProtocol.__init__`: no transport, empty read buffer, watermarks at
the class default and half of it (`//` is Python floor division, `Int.fdiv`),
no stored error, `_may_write` created and then `set()`, not closing, `_closed`
unsignaled, not reading. -/
def BaseProtocol.init : BaseProtocol where
  transport := false
  readBufferSize := 0
  readBufferHigh := read_buffer_size_default
  readBufferLow := Int.fdiv read_buffer_size_default 2
  error := none
  mayWrite := Event.make.set
  closing := false
  closed := Event.make
  reading := false

/-- `BaseProtocol.connection_made(transport)`: store the transport and mark
reading enabled. -/
def connection_made (s : BaseProtocol) : BaseProtocol :=
  { s with transport := true, reading := true }

/-- `BaseProtocol.connection_lost(exc)`: store `exc` only if `_error` is still
`None`, signal `_closed`, clear `_closing`, set `_may_write` (unblocking any
pending writer), and drop the transport reference. -/
def connection_lost (s : BaseProtocol) (exc : Option Err) : BaseProtocol :=
  { s with
    error := if s.error = none then exc else s.error
    closed := s.closed.set
    closing := false
    mayWrite := s.mayWrite.set
    transport := false }

/-- `BaseProtocol.pause_writing()`: clear the `_may_write` gate. -/
def pause_writing (s : BaseProtocol) : BaseProtocol :=
  { s with mayWrite := s.mayWrite.clear }

/-- `BaseProtocol.resume_writing()`: set the `_may_write` gate. -/
def resume_writing (s : BaseProtocol) : BaseProtocol :=
  { s with mayWrite := s.mayWrite.set }

/-- `BaseProtocol.get_read_buffer_size()`. -/
def get_read_buffer_size (s : BaseProtocol) : Int :=
  s.readBufferSize

/-- `BaseProtocol.set_read_buffer_limits(high=None, low=None)`: a missing
`high` defaults to the class attribute 65536, a missing `low` defaults to
`high // 2`, and a `low` above `high` is clamped down to `high`. -/
def set_read_buffer_limits (s : BaseProtocol) (high low : Option Int) : BaseProtocol :=
  let high := high.getD read_buffer_size_default
  let low := low.getD (Int.fdiv high 2)
  let low := if low > high then high else low
  { s with readBufferHigh := high, readBufferLow := low }

/-- `BaseProtocol.read_buffer_size_changed()`: a no-op when no transport is
attached; otherwise pause reading when the buffer has reached the high
watermark while reading, resume when it has fallen to the low watermark while
not reading, and do nothing in between (hysteresis).  The returned list
records the calls made on the transport. -/
def read_buffer_size_changed (s : BaseProtocol) : BaseProtocol × List TransportCall :=
  if s.transport = false then (s, [])
  else
    let bufsize := get_read_buffer_size s
    if bufsize ≥ s.readBufferHigh ∧ s.reading = true then
      ({ s with reading := false }, [TransportCall.pauseReading])
    else if bufsize ≤ s.readBufferLow ∧ s.reading = false then
      ({ s with reading := true }, [TransportCall.resumeReading])
    else (s, [])

/-- How a call to `BaseProtocol.close()` leaves the calling fiber:
`noop` — returned immediately because the protocol was already closing or
closed; `waiting` — marked closing, asked the transport to close, now blocked
in `self._closed.wait()`; `attributeError` — marked closing and then failed
with an `AttributeError` because `self._transport` is `None`. -/
inductive CloseOutcome where
  | noop
  | waiting
  | attributeError
  deriving DecidableEq, Repr

/-- `BaseProtocol.close()`: return immediately if `_closing` is set or the
`_closed` gate is signaled; otherwise set `_closing`, call
`self._transport.close()` (an `AttributeError` when the transport is `None`),
and block on the `_closed` gate. -/
def close (s : BaseProtocol) : BaseProtocol × List TransportCall × CloseOutcome :=
  if s.closing = true ∨ s.closed.signaled = true then (s, [], CloseOutcome.noop)
  else
    let s1 := { s with closing := true }
    if s1.transport = true then (s1, [TransportCall.close], CloseOutcome.waiting)
    else (s1, [], CloseOutcome.attributeError)

/-- How a call to `Protocol.write(data)` leaves the calling fiber: still
`blocked` on the `_may_write` gate, failed (`raised`) with a stored error or
the closing/closed `ProtocolError`, forwarded the data to the transport
(`wrote`), or failed dereferencing an absent transport. -/
inductive WriteOutcome (M : Type) where
  | blocked
  | raised (e : Err)
  | wrote (data : M)
  | attributeError
  deriving DecidableEq, Repr

/-- `Protocol.write(data)`: wait on `_may_write`; then fail with the stored
error if any; then fail with `ProtocolError('protocol is closing/closed')` if
closing or closed; otherwise forward to `self._transport.write(data)`. -/
def write {M : Type} (s : BaseProtocol) (data : M) : WriteOutcome M :=
  if s.mayWrite.signaled = false then WriteOutcome.blocked
  else
    match s.error with
    | some e => WriteOutcome.raised e
    | none =>
      if s.closing = true ∨ s.closed.signaled = true then
        WriteOutcome.raised (Err.protocolError "protocol is closing/closed")
      else if s.transport = true then WriteOutcome.wrote data
      else WriteOutcome.attributeError

/-- The instance state of `MessageProtocol`: the inherited `BaseProtocol`
fields, whether a callable `message_handler` was supplied, the FIFO contents
of `self._queue` (modelled from the spec's BlockingQueue: items are delivered
in enqueue order), and whether the dispatcher fiber is alive. -/
structure MessageProtocol (M : Type) where
  base : BaseProtocol
  hasHandler : Bool
  queue : List M
  hasDispatcher : Bool
  deriving DecidableEq, Repr

/-- `MessageProtocol.__init__(message_handler)`: base initialisation, a fresh
empty queue, and a dispatcher fiber started exactly when the handler is
callable. -/
def MessageProtocol.init {M : Type} (hasHandler : Bool) : MessageProtocol M where
  base := BaseProtocol.init
  hasHandler := hasHandler
  queue := []
  hasDispatcher := hasHandler

/-- Events observable from the dispatch path: a call to
`read_buffer_size_changed` and an invocation of the user handler as
`self._message_handler(message, self._transport, self)`. -/
inductive DispatchEvent (M : Type) where
  | readBufferCheck
  | handlerCall (m : M)
  deriving DecidableEq, Repr

/-- `MessageProtocol.message_received(message)`: the body is the single line
`self._message_handler(message, self._transport, self)` — it invokes the
handler directly and touches neither `self._queue` nor any other field. -/
def message_received {M : Type} (s : MessageProtocol M) (m : M) :
    MessageProtocol M × List (DispatchEvent M) :=
  (s, [DispatchEvent.handlerCall m])

/-- `MessageProtocol.connection_lost(exc)`: the base behaviour, then cancel
and drop the dispatcher fiber. -/
def MessageProtocol.connection_lost {M : Type} (s : MessageProtocol M) (exc : Option Err) :
    MessageProtocol M :=
  { s with base := Gruvi.connection_lost s.base exc, hasDispatcher := false }

/-- `MessageProtocol.get_message()`: pop the head of the queue, or report that
the caller would block on an empty queue. -/
def get_message {M : Type} (s : MessageProtocol M) : Option (M × MessageProtocol M) :=
  match s.queue with
  | [] => none
  | m :: ms => some (m, { s with queue := ms })

/-- The outcome of one handler invocation, as seen by the `try` block of
`_dispatch_loop`: a normal return, or one of the three classes of raised
conditions the loop distinguishes. -/
inductive HandlerResult where
  | ok
  | raiseCancelled
  | raiseProtocolError (msg : String)
  | raiseOther (msg : String)
  deriving DecidableEq, Repr

/-- What one run of `_dispatch_loop` did: the ordered trace of
`read_buffer_size_changed` calls and handler invocations, the value the loop
assigned to `self._error` (if an except branch ran), and how many times it
called `self._transport.close()`. -/
structure DispatchResult (M : Type) where
  events : List (DispatchEvent M)
  errorWrite : Option Err
  closeCalls : Nat
  deriving DecidableEq, Repr

/-- `MessageProtocol._dispatch_loop`, run over the messages currently queued:
repeatedly `get()` a message, call `read_buffer_size_changed()`, then invoke
the handler via `message_received`.  A `Cancelled` raise exits silently; a
`ProtocolError` raise is assigned to `self._error` and the transport is
closed; any other raise assigns `ProtocolError('uncaught exception in
dispatcher')` and closes the transport.  On an exhausted queue the loop
blocks in `get()` (until cancellation), having written no error and closed
nothing. -/
def dispatch_loop {M : Type} (handler : M → HandlerResult) : List M → DispatchResult M
  | [] => ⟨[], none, 0⟩
  | m :: ms =>
    match handler m with
    | HandlerResult.ok =>
      let r := dispatch_loop handler ms
      ⟨DispatchEvent.readBufferCheck :: DispatchEvent.handlerCall m :: r.events,
       r.errorWrite, r.closeCalls⟩
    | HandlerResult.raiseCancelled =>
      ⟨[DispatchEvent.readBufferCheck, DispatchEvent.handlerCall m], none, 0⟩
    | HandlerResult.raiseProtocolError msg =>
      ⟨[DispatchEvent.readBufferCheck, DispatchEvent.handlerCall m],
       some (Err.protocolError msg), 1⟩
    | HandlerResult.raiseOther _ =>
      ⟨[DispatchEvent.readBufferCheck, DispatchEvent.handlerCall m],
       some (Err.protocolError "uncaught exception in dispatcher"), 1⟩

/-- Apply the dispatcher's error write to the protocol state.  The except
branches of `_dispatch_loop` assign `self._error = e` unconditionally — there
is no `is None` guard on this path. -/
def apply_error_write (s : BaseProtocol) : Option Err → BaseProtocol
  | none => s
  | some e => { s with error := some e }

/-- A transport-side change of the read buffer size (the transport updates
`_read_buffer_size` before notifying the protocol). -/
def set_buffer_size (s : BaseProtocol) (n : Int) : BaseProtocol :=
  { s with readBufferSize := n }

/-- Run a sequence of buffer-size changes, each followed by a
`read_buffer_size_changed()` notification, collecting the transport calls. -/
def run_sizes (s : BaseProtocol) : List Int → BaseProtocol × List TransportCall
  | [] => (s, [])
  | n :: ns =>
    let p := read_buffer_size_changed (set_buffer_size s n)
    let q := run_sizes p.1 ns
    (q.1, p.2 ++ q.2)

/-- The dispatch trace produced by a run of the loop over messages that are
all handled without a raise: a read-buffer check before each handler call, in
queue order. -/
def orderedTrace {M : Type} : List M → List (DispatchEvent M)
  | [] => []
  | m :: ms => DispatchEvent.readBufferCheck :: DispatchEvent.handlerCall m :: orderedTrace ms

end Gruvi

namespace Gruvi

/-- Helper: the dispatch loop walks any run of normally-handled messages at
the front of the queue, emitting a read-buffer check and a handler call for
each, and then continues as the loop on the remaining messages. -/
theorem dispatch_loop_ok_front {M : Type} (handler : M → HandlerResult) :
    ∀ (ms1 rest : List M), (∀ x ∈ ms1, handler x = HandlerResult.ok) →
      dispatch_loop handler (ms1 ++ rest)
        = ⟨orderedTrace ms1 ++ (dispatch_loop handler rest).events,
           (dispatch_loop handler rest).errorWrite,
           (dispatch_loop handler rest).closeCalls⟩
  | [], _rest, _ => rfl
  | m :: ms1, rest, h => by
    have hm : handler m = HandlerResult.ok := h m (List.mem_cons_self _ _)
    have ih := dispatch_loop_ok_front handler ms1 rest
      (fun x hx => h x (List.mem_cons_of_mem _ hx))
    simp [dispatch_loop, hm, ih, orderedTrace]

/-- Helper: with watermarks 100/50, a buffer size in the open interval
(51, 99) makes `read_buffer_size_changed` a no-op (no transport call, state
untouched), whatever the reading flag and transport are. -/
theorem rbsc_in_dead_zone (s : BaseProtocol) (hh : s.readBufferHigh = 100)
    (hl : s.readBufferLow = 50) (n : Int) (h1 : 51 < n) (h2 : n < 99) :
    read_buffer_size_changed (set_buffer_size s n) = (set_buffer_size s n, []) := by
  have hA : ¬ (n ≥ (100 : Int)) := by omega
  have hB : ¬ (n ≤ (50 : Int)) := by omega
  simp [read_buffer_size_changed, set_buffer_size, get_read_buffer_size, hh, hl, hA, hB]

/-- Helper: a whole sequence of buffer sizes inside the dead zone produces no
transport calls and leaves the reading flag where it was. -/
theorem run_sizes_dead_zone :
    ∀ (ns : List Int) (s : BaseProtocol), s.readBufferHigh = 100 → s.readBufferLow = 50 →
      (∀ n ∈ ns, 51 < n ∧ n < 99) →
      (run_sizes s ns).2 = [] ∧ (run_sizes s ns).1.reading = s.reading
  | [], _s, _, _, _ => ⟨rfl, rfl⟩
  | n :: ns, s, hh, hl, hns => by
    have hmem : 51 < n ∧ n < 99 := hns n (List.mem_cons_self _ _)
    have hd := rbsc_in_dead_zone s hh hl n hmem.1 hmem.2
    have ih := run_sizes_dead_zone ns (set_buffer_size s n)
      (by simp [set_buffer_size, hh]) (by simp [set_buffer_size, hl])
      (fun x hx => hns x (List.mem_cons_of_mem _ hx))
    constructor
    · simp only [run_sizes]
      rw [hd]
      simpa using ih.1
    · simp only [run_sizes]
      rw [hd]
      rw [ih.2]
      simp [set_buffer_size]

/-- Helper: after any `set_read_buffer_limits` call the low watermark is at
most the high watermark, because of the final clamp. -/
theorem set_read_buffer_limits_invariant (s : BaseProtocol) (oh ol : Option Int) :
    (set_read_buffer_limits s oh ol).readBufferLow
      ≤ (set_read_buffer_limits s oh ol).readBufferHigh := by
  unfold set_read_buffer_limits
  dsimp only
  split
  · exact le_refl _
  · exact le_of_not_lt (by assumption)

/-- Helper: floor division of a nonnegative integer by two does not exceed
it. -/
theorem fdiv_two_le_self (h : Int) (hp : 0 ≤ h) : Int.fdiv h 2 ≤ h := by
  rw [Int.fdiv_eq_ediv _ (by norm_num : (0 : Int) ≤ 2)]
  omega

/-- Helper: a `close()` call on a protocol that is already closing or already
closed returns immediately without touching the state or the transport. -/
theorem close_noop_of_closing_or_closed (t : BaseProtocol)
    (h : t.closing = true ∨ t.closed.signaled = true) :
    close t = (t, [], CloseOutcome.noop) := by
  unfold close
  rw [if_pos h]

/-- Helper: whatever `close()` did, the state it leaves behind is closing or
closed, so a subsequent `close()` is a no-op. -/
theorem close_fst_flag (s : BaseProtocol) :
    (close s).1.closing = true ∨ (close s).1.closed.signaled = true := by
  unfold close
  split
  · next h => exact h
  · by_cases ht : s.transport = true
    · simp [ht]
    · simp [ht]

end Gruvi

namespace Gruvi

/-- C1, counterexample: on a freshly constructed `MessageProtocol` with a
handler, `message_received 0` does not enqueue the message — the queue stays
empty instead of becoming `[0]` — and the trace shows the handler invoked
directly with no preceding `read_buffer_size_changed` call.  The claim that
`message_received` enqueues into the dispatcher's queue is therefore false. -/
theorem C1_counterexample :
    (message_received (MessageProtocol.init (M := Nat) true) 0).1.queue ≠ [0]
    ∧ (message_received (MessageProtocol.init (M := Nat) true) 0).1.queue = []
    ∧ (message_received (MessageProtocol.init (M := Nat) true) 0).2
        = [DispatchEvent.handlerCall 0] :=
  ⟨by decide, rfl, rfl⟩

/-- C1 (amended): `message_received(m)` invokes the handler directly with the
message and changes no state (in particular it never enqueues); it is the
dispatch loop that consumes the dispatcher queue, delivering queued messages
m1, m2, m3 to the handler in exactly that order, with a
`read_buffer_size_changed` call before each handler invocation. -/
theorem C1_dispatch_order {M : Type} (handler : M → HandlerResult) (ms : List M)
    (hok : ∀ x ∈ ms, handler x = HandlerResult.ok) (s : MessageProtocol M) (m0 : M) :
    message_received s m0 = (s, [DispatchEvent.handlerCall m0])
    ∧ dispatch_loop handler ms = ⟨orderedTrace ms, none, 0⟩ := by
  refine ⟨rfl, ?_⟩
  have h := dispatch_loop_ok_front handler ms [] hok
  simpa [dispatch_loop] using h

/-- Witness for C1 (amended) at a concrete handler, queue and message. -/
theorem C1_dispatch_order_witness :
    message_received (MessageProtocol.init (M := Nat) true) 5
        = (MessageProtocol.init true, [DispatchEvent.handlerCall 5])
    ∧ dispatch_loop (fun _ : Nat => HandlerResult.ok) [1, 2, 3]
        = ⟨orderedTrace [1, 2, 3], none, 0⟩ :=
  C1_dispatch_order (fun _ : Nat => HandlerResult.ok) [1, 2, 3]
    (fun _ _ => rfl) (MessageProtocol.init true) 5

/-- C2, counterexample: `connection_lost` stores a first error, and then the
dispatcher's `except ProtocolError` branch — whose assignment to
`self._error` has no `is None` guard — replaces it with a different error,
so the stored error field is not written at most once. -/
theorem C2_counterexample :
    (connection_lost (connection_made BaseProtocol.init)
        (some (Err.generic "io error"))).error = some (Err.generic "io error")
    ∧ (apply_error_write
        (connection_lost (connection_made BaseProtocol.init) (some (Err.generic "io error")))
        (dispatch_loop (M := Nat) (fun _ => HandlerResult.raiseProtocolError "bad")
          [1]).errorWrite).error
        = some (Err.protocolError "bad")
    ∧ (some (Err.protocolError "bad") : Option Err) ≠ some (Err.generic "io error") :=
  ⟨rfl, rfl, by decide⟩

/-- C2 (amended): `connection_lost` writes the error field only when it is
still unset, so on that path a stored error is never replaced; the
dispatcher's error paths, however, assign the field unconditionally and can
overwrite a previously stored error. -/
theorem C2_first_error_sticky (s : BaseProtocol) (e : Err) (exc : Option Err)
    (msg : String) (h : s.error = some e) :
    (connection_lost s exc).error = some e
    ∧ (apply_error_write s (some (Err.protocolError msg))).error
        = some (Err.protocolError msg) := by
  constructor
  · simp [connection_lost, h]
  · rfl

/-- Witness for C2 (amended) at a concrete state with a stored error. -/
theorem C2_first_error_sticky_witness :
    (connection_lost { BaseProtocol.init with error := some Err.cancelled } none).error
        = some Err.cancelled
    ∧ (apply_error_write { BaseProtocol.init with error := some Err.cancelled }
        (some (Err.protocolError "x"))).error = some (Err.protocolError "x") :=
  C2_first_error_sticky { BaseProtocol.init with error := some Err.cancelled }
    Err.cancelled none "x" rfl

/-- The protocol state of C3's scenario: a live transport and watermarks
reconfigured to high = 100, low = 50. -/
def c3_start : BaseProtocol :=
  set_read_buffer_limits (connection_made BaseProtocol.init) (some 100) (some 50)

/-- C3: with watermarks 100/50 and a live transport, reaching size 100 while
reading pauses reading exactly once and disables it, a drop to 60 triggers no
resume, a drop to 50 resumes exactly once and re-enables reading, and any
sequence of sizes strictly between 51 and 99 produces no transport calls and
leaves the reading state unchanged. -/
theorem C3_hysteresis (s : BaseProtocol) (ns : List Int)
    (hh : s.readBufferHigh = 100) (hl : s.readBufferLow = 50)
    (hns : ∀ n ∈ ns, 51 < n ∧ n < 99) :
    (run_sizes c3_start [100]).2 = [TransportCall.pauseReading]
    ∧ (run_sizes c3_start [100]).1.reading = false
    ∧ (run_sizes c3_start [100, 60]).2 = [TransportCall.pauseReading]
    ∧ (run_sizes c3_start [100, 60, 50]).2
        = [TransportCall.pauseReading, TransportCall.resumeReading]
    ∧ (run_sizes c3_start [100, 60, 50]).1.reading = true
    ∧ (run_sizes s ns).2 = [] ∧ (run_sizes s ns).1.reading = s.reading := by
  refine ⟨by decide, by decide, by decide, by decide, by decide, ?_, ?_⟩
  · exact (run_sizes_dead_zone ns s hh hl hns).1
  · exact (run_sizes_dead_zone ns s hh hl hns).2

/-- Witness for C3 at the scenario state and a concrete dead-zone sequence. -/
theorem C3_hysteresis_witness :
    (run_sizes c3_start [100]).2 = [TransportCall.pauseReading]
    ∧ (run_sizes c3_start [100]).1.reading = false
    ∧ (run_sizes c3_start [100, 60]).2 = [TransportCall.pauseReading]
    ∧ (run_sizes c3_start [100, 60, 50]).2
        = [TransportCall.pauseReading, TransportCall.resumeReading]
    ∧ (run_sizes c3_start [100, 60, 50]).1.reading = true
    ∧ (run_sizes c3_start [60, 75, 98, 52]).2 = []
    ∧ (run_sizes c3_start [60, 75, 98, 52]).1.reading = c3_start.reading :=
  C3_hysteresis c3_start [60, 75, 98, 52] (by decide) (by decide) (by decide)

/-- C4: starting from a protocol with no stored error, after
`connection_lost err` any subsequent (or pending, since the write gate is
forced open) `write` fails with `err` itself when `err` is present and with
`ProtocolError('protocol is closing/closed')` when it is absent, and the
`closed` gate is signaled so a task blocked in `close()` is released. -/
theorem C4_connection_lost_write {M : Type} (s : BaseProtocol) (err : Err)
    (exc : Option Err) (d : M) (h : s.error = none) :
    write (connection_lost s (some err)) d = WriteOutcome.raised err
    ∧ write (connection_lost s none) d
        = WriteOutcome.raised (Err.protocolError "protocol is closing/closed")
    ∧ (connection_lost s exc).closed.signaled = true
    ∧ (connection_lost s exc).mayWrite.signaled = true := by
  refine ⟨?_, ?_, rfl, rfl⟩
  · simp [write, connection_lost, Event.set, h]
  · simp [write, connection_lost, Event.set, h]

/-- Witness for C4 at a freshly connected protocol. -/
theorem C4_connection_lost_write_witness :
    write (connection_lost (connection_made BaseProtocol.init)
        (some (Err.generic "gone"))) (37 : Nat)
      = WriteOutcome.raised (Err.generic "gone")
    ∧ write (connection_lost (connection_made BaseProtocol.init) none) (37 : Nat)
      = WriteOutcome.raised (Err.protocolError "protocol is closing/closed")
    ∧ (connection_lost (connection_made BaseProtocol.init) none).closed.signaled = true
    ∧ (connection_lost (connection_made BaseProtocol.init) none).mayWrite.signaled = true :=
  C4_connection_lost_write (connection_made BaseProtocol.init)
    (Err.generic "gone") none 37 rfl

/-- C5: after a run of normally handled messages, a handler that raises a
non-Cancelled, non-ProtocolError condition makes the dispatch loop store the
generic `ProtocolError('uncaught exception in dispatcher')`, call the
transport's `close()` exactly once, and stop — the dispatch trace ends at
that handler invocation, so no later message reaches the handler; a handler
that raises a `ProtocolError` makes the loop store that error itself, close
the transport, and exit likewise. -/
theorem C5_dispatcher_faults {M : Type} (handler : M → HandlerResult)
    (ms1 ms2 ms3 : List M) (m m' : M) (omsg pmsg : String)
    (hok : ∀ x ∈ ms1, handler x = HandlerResult.ok)
    (hother : handler m = HandlerResult.raiseOther omsg)
    (hperr : handler m' = HandlerResult.raiseProtocolError pmsg) :
    dispatch_loop handler (ms1 ++ m :: ms2)
      = ⟨orderedTrace ms1 ++ [DispatchEvent.readBufferCheck, DispatchEvent.handlerCall m],
         some (Err.protocolError "uncaught exception in dispatcher"), 1⟩
    ∧ dispatch_loop handler (ms1 ++ m' :: ms3)
      = ⟨orderedTrace ms1 ++ [DispatchEvent.readBufferCheck, DispatchEvent.handlerCall m'],
         some (Err.protocolError pmsg), 1⟩ := by
  constructor
  · rw [dispatch_loop_ok_front handler ms1 (m :: ms2) hok]
    simp [dispatch_loop, hother]
  · rw [dispatch_loop_ok_front handler ms1 (m' :: ms3) hok]
    simp [dispatch_loop, hperr]

/-- Witness for C5 at a concrete handler that succeeds on message 0, raises
an uncaught condition on message 1 and a protocol error on message 2. -/
theorem C5_dispatcher_faults_witness :
    dispatch_loop (fun n : Nat =>
        if n = 0 then HandlerResult.ok
        else if n = 1 then HandlerResult.raiseOther "boom"
        else HandlerResult.raiseProtocolError "bad") ([0] ++ 1 :: [9])
      = ⟨orderedTrace [0] ++ [DispatchEvent.readBufferCheck, DispatchEvent.handlerCall 1],
         some (Err.protocolError "uncaught exception in dispatcher"), 1⟩
    ∧ dispatch_loop (fun n : Nat =>
        if n = 0 then HandlerResult.ok
        else if n = 1 then HandlerResult.raiseOther "boom"
        else HandlerResult.raiseProtocolError "bad") ([0] ++ 2 :: [9])
      = ⟨orderedTrace [0] ++ [DispatchEvent.readBufferCheck, DispatchEvent.handlerCall 2],
         some (Err.protocolError "bad"), 1⟩ :=
  C5_dispatcher_faults (fun n : Nat =>
      if n = 0 then HandlerResult.ok
      else if n = 1 then HandlerResult.raiseOther "boom"
      else HandlerResult.raiseProtocolError "bad")
    [0] [9] [9] 1 2 "boom" "bad" (by decide) (by decide) (by decide)

/-- C6: `close()` is idempotent — whatever one `close()` call did (completed,
in progress, or no-op), a second `close()` on the resulting state returns
immediately with no transport call, and `close()` on an already-closed
protocol is a no-op. -/
theorem C6_close_idempotent (s t : BaseProtocol) (hclosed : t.closed.signaled = true) :
    close (close s).1 = ((close s).1, [], CloseOutcome.noop)
    ∧ close t = (t, [], CloseOutcome.noop) :=
  ⟨close_noop_of_closing_or_closed _ (close_fst_flag s),
   close_noop_of_closing_or_closed t (Or.inr hclosed)⟩

/-- Witness for C6: a second close after a first close on a live connection,
and a close on a protocol whose connection was already lost. -/
theorem C6_close_idempotent_witness :
    close (close (connection_made BaseProtocol.init)).1
        = ((close (connection_made BaseProtocol.init)).1, [], CloseOutcome.noop)
    ∧ close (connection_lost (connection_made BaseProtocol.init) none)
        = (connection_lost (connection_made BaseProtocol.init) none, [],
           CloseOutcome.noop) :=
  C6_close_idempotent (connection_made BaseProtocol.init)
    (connection_lost (connection_made BaseProtocol.init) none) rfl

/-- C7: immediately after construction — of a `BaseProtocol` or of a
`MessageProtocol` with or without a handler — the may-write gate is signaled,
the closing flag is false, and the closed gate is unsignaled. -/
theorem C7_initial_state :
    BaseProtocol.init.mayWrite.signaled = true
    ∧ BaseProtocol.init.closing = false
    ∧ BaseProtocol.init.closed.signaled = false
    ∧ ∀ b : Bool,
        (MessageProtocol.init (M := Nat) b).base.mayWrite.signaled = true
        ∧ (MessageProtocol.init (M := Nat) b).base.closing = false
        ∧ (MessageProtocol.init (M := Nat) b).base.closed.signaled = false :=
  ⟨rfl, rfl, rfl, fun _ => ⟨rfl, rfl, rfl⟩⟩

/-- C8: `set_read_buffer_limits` defaults an omitted high watermark to 65536
and an omitted low watermark to the floor of high over two (for the
nonnegative watermarks the protocol uses), clamps a low above high down to
high, and both after construction and after every call the low watermark is
at most the high watermark. -/
theorem C8_read_buffer_limits (s : BaseProtocol) (h l : Int) (oh ol : Option Int)
    (hpos : 0 ≤ h) (hgt : l > h) :
    (set_read_buffer_limits s none ol).readBufferHigh = 65536
    ∧ (set_read_buffer_limits s (some h) none).readBufferHigh = h
    ∧ (set_read_buffer_limits s (some h) none).readBufferLow = Int.fdiv h 2
    ∧ (set_read_buffer_limits s (some h) (some l)).readBufferLow = h
    ∧ (set_read_buffer_limits s oh ol).readBufferLow
        ≤ (set_read_buffer_limits s oh ol).readBufferHigh
    ∧ BaseProtocol.init.readBufferLow ≤ BaseProtocol.init.readBufferHigh := by
  refine ⟨rfl, rfl, ?_, ?_, set_read_buffer_limits_invariant s oh ol, by decide⟩
  · show (if Int.fdiv h 2 > h then h else Int.fdiv h 2) = Int.fdiv h 2
    rw [if_neg (not_lt.mpr (fdiv_two_le_self h hpos))]
  · show (if l > h then h else l) = h
    rw [if_pos hgt]

/-- Witness for C8 at concrete watermark arguments. -/
theorem C8_read_buffer_limits_witness :
    (set_read_buffer_limits BaseProtocol.init none (some 3)).readBufferHigh = 65536
    ∧ (set_read_buffer_limits BaseProtocol.init (some 10) none).readBufferHigh = 10
    ∧ (set_read_buffer_limits BaseProtocol.init (some 10) none).readBufferLow
        = Int.fdiv 10 2
    ∧ (set_read_buffer_limits BaseProtocol.init (some 10) (some 99)).readBufferLow = 10
    ∧ (set_read_buffer_limits BaseProtocol.init (some 7) (some 3)).readBufferLow
        ≤ (set_read_buffer_limits BaseProtocol.init (some 7) (some 3)).readBufferHigh
    ∧ BaseProtocol.init.readBufferLow ≤ BaseProtocol.init.readBufferHigh :=
  C8_read_buffer_limits BaseProtocol.init 10 99 (some 7) (some 3)
    (by decide) (by decide)

/-- C9: when no transport is attached, `read_buffer_size_changed` returns at
once: it makes no transport call and leaves the entire protocol state —
reading flag included — unchanged, for every buffer size and watermark
configuration. -/
theorem C9_no_transport_noop (s : BaseProtocol) (h : s.transport = false) :
    read_buffer_size_changed s = (s, []) := by
  simp [read_buffer_size_changed, h]

/-- Witness for C9 on a freshly constructed protocol, which has no
transport. -/
theorem C9_no_transport_noop_witness :
    read_buffer_size_changed BaseProtocol.init = (BaseProtocol.init, []) :=
  C9_no_transport_noop BaseProtocol.init rfl

/-- C10: `close()` on a protocol that is neither closing nor closed and has
no transport attached first sets the closing flag and then dereferences the
absent transport, ending in an attribute error rather than a
`ProtocolError`. -/
theorem C10_close_without_transport (s : BaseProtocol)
    (h1 : s.closing = false) (h2 : s.closed.signaled = false)
    (h3 : s.transport = false) :
    close s = ({ s with closing := true }, [], CloseOutcome.attributeError) := by
  simp [close, h1, h2, h3]

/-- Witness for C10 on a freshly constructed protocol. -/
theorem C10_close_without_transport_witness :
    close BaseProtocol.init
      = ({ BaseProtocol.init with closing := true }, [], CloseOutcome.attributeError) :=
  C10_close_without_transport BaseProtocol.init rfl rfl rfl

end Gruvi
